import Mathlib

/-!
Verification development for the TLS certificate trust engine of
`conn/ssl_gnutls.c`: the per-certificate preauthentication check
(`tls_check_preauth`), the certificate-file trust store and its lookups
(`tls_check_stored_hostname`, `tls_compare_certificates`), the interactive
per-certificate check with persistence (`tls_check_one_certificate`) and the
two-phase chain walk (`tls_check_certificate`).

Modelling conventions:
- C `int` bitmasks become `Nat` with `|||`, `&&&`, `^^^`; the constants keep
  the values of the C macros and of the GnuTLS status flags.
- The certificate file is modelled by its parsed content: the list of its
  text lines (scanned by `tls_check_stored_hostname`) and the list of decoded
  DER byte strings of its PEM certificate blocks (scanned by
  `tls_compare_certificates`).  PEM block lines never begin with the two
  characters `#H` (the markers and base64 bodies contain no `#`), and `#H`
  pin lines are skipped as junk by the PEM scanner, so keeping the two views
  side by side is faithful.
- External collaborators are parameters: the human decision is a function
  from chain position to a three-way `Decision`; the library re-verification
  `tls_verify_peers` after `gnutls_certificate_set_x509_trust_mem` is a
  function from the list of anchors added so far to a raw status word; the
  MD5 fingerprint rendering `tls_fingerprint GNUTLS_DIG_MD5` is a function
  field of the configuration; possible failure of `mutt_file_fopen`/`fwrite`
  during "accept always" is an oracle of booleans per chain position.
- `gnutls_x509_crt_init`/`gnutls_x509_crt_import` are assumed to succeed
  (their failure paths only abort with an error message).
-/

/-! ## Certificate error bitmap values (`CERTERR_*`) -/

def CERTERR_VALID : Nat := 0
def CERTERR_EXPIRED : Nat := 1
def CERTERR_NOTYETVALID : Nat := 2
def CERTERR_REVOKED : Nat := 4
def CERTERR_NOTTRUSTED : Nat := 8
def CERTERR_HOSTNAME : Nat := 16
def CERTERR_SIGNERNOTCA : Nat := 32
def CERTERR_INSECUREALG : Nat := 64
def CERTERR_OTHER : Nat := 128

/-! ## GnuTLS certificate status flags consumed by `tls_check_preauth` -/

def GNUTLS_CERT_INVALID : Nat := 2
def GNUTLS_CERT_REVOKED : Nat := 32
def GNUTLS_CERT_SIGNER_NOT_FOUND : Nat := 64
def GNUTLS_CERT_SIGNER_NOT_CA : Nat := 128
def GNUTLS_CERT_INSECURE_ALGORITHM : Nat := 512

/-! ## The `#H` hostname-pin line format

`tls_check_stored_hostname` recognises pin lines with the POSIX regex
`^#H ([a-zA-Z0-9_.-]+) ([0-9A-F]4( [0-9A-F]4)7)[ \t]*$` compiled with
`REG_ICASE` (braces of the counted repetitions omitted here), after a quick
check that the line begins with the two characters `#H`.  Since the hostname
class excludes the space separator and the digest groups have fixed width,
the regex matches a line in exactly one way; the parser below returns the two
captured groups. -/

def isHostChar (c : Char) : Bool :=
  ('a' ≤ c && c ≤ 'z') || ('A' ≤ c && c ≤ 'Z') || ('0' ≤ c && c ≤ '9') ||
    c == '_' || c == '.' || c == '-'

def isHexDigitChar (c : Char) : Bool :=
  ('0' ≤ c && c ≤ '9') || ('A' ≤ c && c ≤ 'F') || ('a' ≤ c && c ≤ 'f')

def isBlankChar (c : Char) : Bool :=
  c == ' ' || c == '\t'

/-- Maximal run of hostname-class characters, with the rest of the line. -/
def spanHost : List Char → List Char × List Char
  | [] => ([], [])
  | c :: cs =>
    if isHostChar c then
      let p := spanHost cs
      (c :: p.1, p.2)
    else ([], c :: cs)

/-- One group of exactly four hex digits (`[0-9A-F]` with `REG_ICASE`). -/
def parseHex4 : List Char → Option (List Char × List Char)
  | a :: b :: c :: d :: rest =>
    if isHexDigitChar a && isHexDigitChar b && isHexDigitChar c && isHexDigitChar d then
      some ([a, b, c, d], rest)
    else none
  | _ => none

/-- Parses `n` further groups, each a space followed by four hex digits. -/
def parseHexGroups : Nat → List Char → Option (List Char × List Char)
  | 0, rest => some ([], rest)
  | n + 1, rest =>
    match rest with
    | [] => none
    | c :: rest1 =>
      if c = ' ' then
        match parseHex4 rest1 with
        | none => none
        | some (g, rest2) =>
          match parseHexGroups n rest2 with
          | none => none
          | some (gs, rest3) => some ((c :: g) ++ gs, rest3)
      else none

/-- The digest capture group: four hex digits and seven space-prefixed groups. -/
def parseDigest (l : List Char) : Option (List Char × List Char) :=
  match parseHex4 l with
  | none => none
  | some (g, rest) =>
    match parseHexGroups 7 rest with
    | none => none
    | some (gs, rest2) => some (g ++ gs, rest2)

/-- Full pin line: `#H `, hostname capture, a space, digest capture, optional
trailing blanks.  Returns the two captures. -/
def parseHostnamePinLine (line : List Char) : Option (List Char × List Char) :=
  match line with
  | '#' :: 'H' :: ' ' :: rest =>
    let s := spanHost rest
    if s.1 = [] then none
    else
      match s.2 with
      | [] => none
      | c :: rest2 =>
        if c = ' ' then
          match parseDigest rest2 with
          | none => none
          | some (d, rest3) => if rest3.all isBlankChar then some (s.1, d) else none
        else none
  | _ => none

/-! ## The certificate file (trust store) -/

/-- Parsed content of `C_CertificateFile`: its text lines, and the decoded
DER bytes of each PEM certificate block in it. -/
structure CertFile where
  lines : List (List Char)
  certs : List (List Nat)
deriving DecidableEq

/-- The `fprintf(fp, "#H %s %s", hostname, fpbuf)` call (newline-terminated)
in the accept-always branch
of `tls_check_one_certificate`: appends one pin line.  (All hostnames and
fingerprints the program writes are newline-free, so one call appends one
line.) -/
def hostnamePinLine (hostname fp : List Char) : List Char :=
  '#' :: 'H' :: ' ' :: (hostname ++ ' ' :: fp)

def appendHostnamePin (store : CertFile) (hostname fp : List Char) : CertFile :=
  { store with lines := store.lines ++ [hostnamePinLine hostname fp] }

/-- The `gnutls_pem_base64_encode_alloc`/`fwrite` path: appends one PEM
certificate block, i.e. one decoded DER byte string in this model. -/
def appendCert (store : CertFile) (bytes : List Nat) : CertFile :=
  { store with certs := store.certs ++ [bytes] }

/-- The line-scanning loop of `tls_check_stored_hostname`: stop at the first
line whose captures compare equal (`strcmp`, exact) to the hostname and to
the fingerprint of the queried certificate. -/
def storedHostnameLoop (hostname fp : List Char) : List (List Char) → Bool
  | [] => false
  | line :: rest =>
    match parseHostnamePinLine line with
    | some (h, d) =>
      if h = hostname ∧ d = fp then true else storedHostnameLoop hostname fp rest
    | none => storedHostnameLoop hostname fp rest

/-- The cert-comparison loop of `tls_compare_certificates`: byte-for-byte
comparison (size check plus `memcmp`) against each decoded block. -/
def certCompareLoop (peer : List Nat) : List (List Nat) → Bool
  | [] => false
  | c :: cs => if c = peer then true else certCompareLoop peer cs

/-! ## Certificates and configuration -/

/-- A peer certificate: its DER bytes plus the library-derived facts
`tls_check_preauth` consults.  `hostnameMatch` is the result of
`gnutls_x509_crt_check_hostname` for the connection hostname. -/
structure Certificate where
  bytes : List Nat
  activationTime : Int
  expirationTime : Int
  hostnameMatch : Bool
deriving DecidableEq

/-- Configuration and environment: the `C_Ssl*` options, whether
`C_CertificateFile` is configured, the current time `mutt_date_epoch`, and
the MD5 fingerprint rendering used for `#H` lines. -/
structure Config where
  sslVerifyDates : Bool
  sslVerifyHost : Bool
  certificateFileSet : Bool
  now : Int
  md5fp : List Nat → List Char

/-- Model of `tls_check_stored_hostname`: `fopen(C_CertificateFile)` fails when no
file is configured (yielding no match); otherwise scan the lines against the
MD5 fingerprint of the certificate. -/
def tls_check_stored_hostname (cfg : Config) (store : CertFile)
    (certBytes : List Nat) (hostname : List Char) : Bool :=
  if cfg.certificateFileSet then
    storedHostnameLoop hostname (cfg.md5fp certBytes) store.lines
  else false

/-- Model of `tls_compare_certificates`: `stat`/`fopen` of an unconfigured file fails
(yielding no match); otherwise compare against each PEM block. -/
def tls_compare_certificates (cfg : Config) (store : CertFile)
    (peer : List Nat) : Bool :=
  if cfg.certificateFileSet then certCompareLoop peer store.certs else false

/-! ## `tls_check_preauth` -/

/-- The date checks of `tls_check_preauth`: under `C_SslVerifyDates`, set
`CERTERR_EXPIRED` when the expiration time is before `mutt_date_epoch()` and
`CERTERR_NOTYETVALID` when the activation time is after it. -/
def preauthDateBits (cfg : Config) (cert : Certificate) : Nat :=
  if cfg.sslVerifyDates = true then
    (if cert.expirationTime < cfg.now then CERTERR_EXPIRED else 0) |||
      (if cfg.now < cert.activationTime then CERTERR_NOTYETVALID else 0)
  else 0

/-- The hostname check of `tls_check_preauth`: only at chain index 0, under
`C_SslVerifyHost`, when neither the certificate's name fields nor a stored
`#H` pin match the hostname. -/
def preauthHostnameBit (cfg : Config) (store : CertFile) (cert : Certificate)
    (hostname : List Char) (chainidx : Nat) : Nat :=
  if chainidx = 0 ∧ cfg.sslVerifyHost = true ∧ cert.hostnameMatch = false ∧
      tls_check_stored_hostname cfg store cert.bytes hostname = false then
    CERTERR_HOSTNAME
  else 0

/-- The error bits accumulated by `tls_check_preauth` before the saved-cert
check: dates, hostname, and the revoked flag from the library status. -/
def preauthEarlyBits (cfg : Config) (store : CertFile) (cert : Certificate)
    (hostname : List Char) (chainidx : Nat) (certstat : Nat) : Nat :=
  preauthDateBits cfg cert ||| preauthHostnameBit cfg store cert hostname chainidx |||
    (if certstat &&& GNUTLS_CERT_REVOKED ≠ 0 then CERTERR_REVOKED else 0)

/-- The update `certstat ^= GNUTLS_CERT_REVOKED` after consuming the revoked flag. -/
def certstatAfterRevoked (certstat : Nat) : Nat :=
  if certstat &&& GNUTLS_CERT_REVOKED ≠ 0 then certstat ^^^ GNUTLS_CERT_REVOKED else certstat

/-- One `if (certstat & LIBBIT) ... certstat ^= LIBBIT` step mapping a
library status flag to an error bit and consuming it. -/
def consumeBit (s : Nat × Nat) (libBit errBit : Nat) : Nat × Nat :=
  if s.2 &&& libBit ≠ 0 then (s.1 ||| errBit, s.2 ^^^ libBit) else s

/-- The mapping of the remaining library status flags after the saved-cert
check, with unconsumed leftovers flagged `CERTERR_OTHER`. -/
def preauthLateBits (certerr certstat : Nat) : Nat :=
  let s1 := consumeBit (certerr, certstat) GNUTLS_CERT_INVALID CERTERR_NOTTRUSTED
  let s2 := consumeBit s1 GNUTLS_CERT_SIGNER_NOT_FOUND CERTERR_NOTTRUSTED
  let s3 := consumeBit s2 GNUTLS_CERT_SIGNER_NOT_CA CERTERR_SIGNERNOTCA
  let s4 := consumeBit s3 GNUTLS_CERT_INSECURE_ALGORITHM CERTERR_INSECUREALG
  if s4.2 ≠ 0 then s4.1 ||| CERTERR_OTHER else s4.1

/-- Model of `tls_check_preauth`, returning the pair `(certerr, savedcert)`.  The
function's `int` result is derived: 0 exactly when `certerr` is
`CERTERR_VALID`. -/
def tls_check_preauth (cfg : Config) (store : CertFile) (hostname : List Char)
    (cert : Certificate) (certstat : Nat) (chainidx : Nat) : Nat × Bool :=
  let certerr := preauthEarlyBits cfg store cert hostname chainidx certstat
  let savedcert := tls_compare_certificates cfg store cert.bytes
  if savedcert = true ∧ certerr = 0 then (CERTERR_VALID, true)
  else (preauthLateBits certerr (certstatAfterRevoked certstat), savedcert)

/-! ## `tls_check_one_certificate` -/

/-- The human's three-way choice in the interactive menu. -/
inductive Decision
  | reject
  | acceptOnce
  | acceptAlways
deriving DecidableEq

/-- Result of `tls_check_one_certificate`: its boolean return value, the
certificate file after any appends, whether the interactive menu was shown
at all, whether the accept-always keys were offered (`menu->keys` is `roa`
rather than `ro`), and whether the "Couldn't save certificate" warning was
issued. -/
structure OneCertResult where
  accepted : Bool
  store : CertFile
  asked : Bool
  offeredAlways : Bool
  warned : Bool
deriving DecidableEq

/-- The condition under which the menu offers `(a)ccept always`:
`C_CertificateFile && !savedcert && !(certerr & (CERTERR_EXPIRED |
CERTERR_NOTYETVALID | CERTERR_REVOKED))`. -/
def allowAcceptAlways (cfg : Config) (certerr : Nat) (savedcert : Bool) : Bool :=
  cfg.certificateFileSet && !savedcert &&
    decide (certerr &&& (CERTERR_EXPIRED ||| CERTERR_NOTYETVALID ||| CERTERR_REVOKED) = 0)

/-- Model of `tls_check_one_certificate`.  Here `d` is the human decision; `openOk` models
success of `mutt_file_fopen(C_CertificateFile, "a")` and `pemOk` success of
the PEM encode and `fwrite` of the certificate block.  When the menu does
not offer accept-always its keys are only `ro`, so a strategy wishing to
accept can only accept once: a `Decision.acceptAlways` is then resolved to
the accept-once behaviour (nothing is persisted). -/
def tls_check_one_certificate (cfg : Config) (store : CertFile)
    (hostname : List Char) (cert : Certificate) (certstat : Nat) (idx : Nat)
    (d : Decision) (openOk pemOk : Bool) : OneCertResult :=
  let pa := tls_check_preauth cfg store hostname cert certstat idx
  if pa.1 = 0 then ⟨true, store, false, false, false⟩
  else
    let certerr := pa.1
    let offerAlways := allowAcceptAlways cfg certerr pa.2
    match d with
    | .reject => ⟨false, store, true, offerAlways, false⟩
    | .acceptOnce => ⟨true, store, true, offerAlways, false⟩
    | .acceptAlways =>
      if offerAlways = false then ⟨true, store, true, offerAlways, false⟩
      else
        -- the OP_MAX + 3 (accept always) branch
        let hostBit := certerr &&& CERTERR_HOSTNAME ≠ 0
        let otherBits := certerr ^^^ CERTERR_HOSTNAME ≠ 0
        let store1 :=
          if openOk = true ∧ hostBit then
            appendHostnamePin store hostname (cfg.md5fp cert.bytes)
          else store
        let store2 :=
          if openOk = true ∧ otherBits ∧ pemOk = true then appendCert store1 cert.bytes
          else store1
        -- `done` after the branch: 1 from the hostname line unless the
        -- cert-block write was attempted, in which case its success decides
        let saveOk : Bool := openOk && (if otherBits then pemOk else decide hostBit)
        ⟨true, store2, true, offerAlways, !saveOk⟩

/-! ## `tls_check_certificate` -/

/-- Result of `tls_check_certificate`: its boolean verdict, the certificate
file after all mutations, and the chain positions (in call order) at which
the interactive menu was shown. -/
structure VerifyResult where
  accepted : Bool
  store : CertFile
  asked : List Nat
deriving DecidableEq

/-- Outcome of the first (fast-path) loop: an immediate acceptance, or
falling through to the interactive loop with the stashed result `rcpeer`
for the end-entity certificate. -/
inductive PhaseAOut
  | accepted
  | toB (rcpeer : Int)
deriving DecidableEq

/-- The first loop of `tls_check_certificate` (leaf to root): run
`tls_check_preauth` on each certificate, accumulate `preauthrc`, stash the
leaf's result in `rcpeer`, and short-circuit on a saved certificate. -/
def phaseA (cfg : Config) (store : CertFile) (hostname : List Char)
    (certstat : Nat) :
    List Certificate → Nat → Int → Int → PhaseAOut
  | [], _, _, rcpeer => .toB rcpeer
  | cert :: rest, i, preauthrc, rcpeer =>
    let pa := tls_check_preauth cfg store hostname cert certstat i
    let rc : Int := if pa.1 = 0 then 0 else -1
    let preauthrc1 := preauthrc + rc
    let rcpeer1 := if i = 0 then rc else rcpeer
    if pa.2 = true then
      if preauthrc1 = 0 then .accepted else .toB rcpeer1
    else
      phaseA cfg store hostname certstat rest (i + 1) preauthrc1 rcpeer1

/-- Placeholder certificate for out-of-range list indexing (never reached:
the walk only indexes below the chain length). -/
def dummyCert : Certificate := ⟨[], 0, 0, true⟩

/-- The second loop of `tls_check_certificate` (root to leaf, the loop
counter is the chain index): check each certificate interactively; after a
positive result at a nonzero index, add the certificate to the trust set,
re-verify the peers, and return success immediately if the new status is
clean and the stashed `rcpeer` was 0.  The `dport` function is the human
decision per position; `reverify` gives `tls_verify_peers` as a function of
the anchors added so far; `openOk`/`pemOk` are the write oracles per
position. -/
def phaseB (cfg : Config) (hostname : List Char) (chain : List Certificate)
    (dport : Nat → Decision) (reverify : List (List Nat) → Nat)
    (openOk pemOk : Nat → Bool) (rcpeer : Int) :
    Nat → Nat → CertFile → List (List Nat) → List Nat → VerifyResult
  | 0, certstat, store, _anchors, asked =>
    let r := tls_check_one_certificate cfg store hostname (chain.getD 0 dummyCert)
      certstat 0 (dport 0) (openOk 0) (pemOk 0)
    ⟨r.accepted, r.store, asked ++ (if r.asked then [0] else [])⟩
  | i + 1, certstat, store, anchors, asked =>
    let r := tls_check_one_certificate cfg store hostname
      (chain.getD (i + 1) dummyCert) certstat (i + 1) (dport (i + 1))
      (openOk (i + 1)) (pemOk (i + 1))
    let asked1 := asked ++ (if r.asked then [i + 1] else [])
    if r.accepted then
      let anchors1 := anchors ++ [(chain.getD (i + 1) dummyCert).bytes]
      let certstat1 := reverify anchors1
      if certstat1 = 0 ∧ rcpeer = 0 then ⟨true, r.store, asked1⟩
      else phaseB cfg hostname chain dport reverify openOk pemOk rcpeer
        i certstat1 r.store anchors1 asked1
    else
      phaseB cfg hostname chain dport reverify openOk pemOk rcpeer
        i certstat r.store anchors asked1

/-- Model of `tls_check_certificate`: the two loops in sequence.  `certstat0` is the
initial `tls_verify_peers` status.  An empty peer list cannot occur (the
caller errors out first); it is mapped to rejection, matching the untouched
`rc = 0`. -/
def tls_check_certificate (cfg : Config) (hostname : List Char)
    (chain : List Certificate) (certstat0 : Nat) (store : CertFile)
    (dport : Nat → Decision) (reverify : List (List Nat) → Nat)
    (openOk pemOk : Nat → Bool) : VerifyResult :=
  match chain with
  | [] => ⟨false, store, []⟩
  | _ :: _ =>
    match phaseA cfg store hostname certstat0 chain 0 0 (-1) with
    | .accepted => ⟨true, store, []⟩
    | .toB rcpeer =>
      phaseB cfg hostname chain dport reverify openOk pemOk rcpeer
        (chain.length - 1) certstat0 store [] []

/-! ## Bitmask helper lemmas -/

theorem lor_land_right (a b m : Nat) : (a ||| b) &&& m = (a &&& m) ||| (b &&& m) :=
  Nat.eq_of_testBit_eq fun i => by
    simp [Nat.testBit_and, Nat.testBit_or, Bool.and_or_distrib_right]

theorem mask_or_zero (a b m : Nat) (ha : a &&& m = 0) (hb : b &&& m = 0) :
    (a ||| b) &&& m = 0 := by
  rw [lor_land_right, ha, hb]
  rfl

theorem lor_eq_zero_parts (a b : Nat) (h : a ||| b = 0) : a = 0 ∧ b = 0 := by
  constructor <;> apply Nat.eq_of_testBit_eq <;> intro i <;>
    have hi := congrArg (fun x => Nat.testBit x i) h <;>
    simp only [Nat.testBit_or, Nat.zero_testBit, Bool.or_eq_false_iff] at hi <;>
    simp [hi.1, hi.2]

theorem consumeBit_fst (s : Nat × Nat) (libBit errBit : Nat) :
    (consumeBit s libBit errBit).1 =
      s.1 ||| (if s.2 &&& libBit ≠ 0 then errBit else 0) := by
  unfold consumeBit
  split <;> simp_all

theorem lor_chain4 (e a b c d : Nat) :
    ∃ m, (((e ||| a) ||| b) ||| c) ||| d = e ||| m :=
  ⟨((a ||| b) ||| c) ||| d, by simp [Nat.lor_assoc]⟩

theorem lor_chain5 (e a b c d f : Nat) :
    ∃ m, ((((e ||| a) ||| b) ||| c) ||| d) ||| f = e ||| m :=
  ⟨(((a ||| b) ||| c) ||| d) ||| f, by simp [Nat.lor_assoc]⟩

theorem preauthLateBits_shape (e s : Nat) :
    ∃ m, preauthLateBits e s = e ||| m := by
  unfold preauthLateBits
  simp only [consumeBit_fst]
  split
  · exact lor_chain5 e _ _ _ _ _
  · exact lor_chain4 e _ _ _ _

theorem preauthLateBits_zero (e s : Nat) (h : preauthLateBits e s = 0) : e = 0 := by
  obtain ⟨m, hm⟩ := preauthLateBits_shape e s
  exact (lor_eq_zero_parts e m (hm ▸ h)).1

theorem preauthLateBits_ne_zero (e s : Nat) (h : e ≠ 0) :
    preauthLateBits e s ≠ 0 :=
  fun hz => h (preauthLateBits_zero e s hz)

theorem preauthLateBits_land (e s m : Nat)
    (h8 : CERTERR_NOTTRUSTED &&& m = 0) (h32 : CERTERR_SIGNERNOTCA &&& m = 0)
    (h64 : CERTERR_INSECUREALG &&& m = 0) (h128 : CERTERR_OTHER &&& m = 0) :
    preauthLateBits e s &&& m = e &&& m := by
  have hzero : (0 : Nat) &&& m = 0 := by simp
  unfold preauthLateBits
  simp only [consumeBit_fst]
  split <;>
    simp only [lor_land_right, apply_ite (· &&& m), h8, h32, h64, h128, hzero,
      ite_self, Nat.or_zero]

/-- The second component of `tls_check_preauth` is always the saved-cert
lookup result. -/
theorem tls_check_preauth_snd (cfg : Config) (store : CertFile)
    (hostname : List Char) (cert : Certificate) (certstat : Nat) (chainidx : Nat) :
    (tls_check_preauth cfg store hostname cert certstat chainidx).2 =
      tls_compare_certificates cfg store cert.bytes := by
  simp only [tls_check_preauth]
  split
  · next hcond => exact hcond.1.symm
  · rfl

/-! ## Claim C2 -/

/-- C2 counterexample: a pinned leaf certificate whose only accumulated bit
before the saved-cert check is CERTERR_HOSTNAME (dates clean, library status
GNUTLS_CERT_INVALID, hostname mismatching and no stored pin).  The claim
predicts the short-circuit fires and preauth returns (VALID, true); the code
does not short-circuit and returns (CERTERR_HOSTNAME plus
CERTERR_NOTTRUSTED, true). -/
theorem claim_C2_counterexample :
    tls_compare_certificates ⟨false, true, true, 0, fun _ => []⟩ ⟨[], [[7]]⟩ [7] = true ∧
    preauthEarlyBits ⟨false, true, true, 0, fun _ => []⟩ ⟨[], [[7]]⟩
        ⟨[7], -100, 100, false⟩ [] 0 GNUTLS_CERT_INVALID &&&
      (CERTERR_EXPIRED ||| CERTERR_NOTYETVALID ||| CERTERR_REVOKED) = 0 ∧
    tls_check_preauth ⟨false, true, true, 0, fun _ => []⟩ ⟨[], [[7]]⟩ []
        ⟨[7], -100, 100, false⟩ GNUTLS_CERT_INVALID 0 =
      (CERTERR_HOSTNAME ||| CERTERR_NOTTRUSTED, true) ∧
    CERTERR_HOSTNAME ||| CERTERR_NOTTRUSTED ≠ CERTERR_VALID := by
  refine ⟨by decide, by decide, by decide, by decide⟩

/-- C2 (amended): the pinned-certificate short-circuit of
`tls_check_preauth` (returning the pair VALID and true) is taken if and
only if `tls_compare_certificates` matches and NO bit at all has been
accumulated before the saved-cert check — not only the three bits
CERTERR_EXPIRED, CERTERR_NOTYETVALID, CERTERR_REVOKED: an accumulated
CERTERR_HOSTNAME also blocks it. -/
theorem claim_C2_theorem (cfg : Config) (store : CertFile) (hostname : List Char)
    (cert : Certificate) (certstat : Nat) (chainidx : Nat) :
    tls_check_preauth cfg store hostname cert certstat chainidx =
        (CERTERR_VALID, true) ↔
      (tls_compare_certificates cfg store cert.bytes = true ∧
        preauthEarlyBits cfg store cert hostname chainidx certstat = 0) := by
  simp only [tls_check_preauth]
  split
  · next hcond => simp [hcond.1, hcond.2]
  · next hcond =>
    constructor
    · intro heq
      rw [Prod.mk.injEq] at heq
      exact absurd ⟨heq.2, preauthLateBits_zero _ _ heq.1⟩ hcond
    · intro hrhs
      exact absurd hrhs hcond

/-! ## Claim C7 -/

/-- C7: `tls_check_preauth` sets CERTERR_HOSTNAME only at chain index 0;
for any nonzero index the result never carries the hostname bit. -/
theorem claim_C7_theorem (cfg : Config) (store : CertFile) (hostname : List Char)
    (cert : Certificate) (certstat : Nat) (chainidx : Nat) (h : chainidx ≠ 0) :
    (tls_check_preauth cfg store hostname cert certstat chainidx).1 &&&
      CERTERR_HOSTNAME = 0 := by
  simp only [tls_check_preauth]
  split
  · decide
  · rw [preauthLateBits_land _ _ _ (by decide) (by decide) (by decide) (by decide)]
    apply mask_or_zero
    · apply mask_or_zero
      · unfold preauthDateBits
        split
        · apply mask_or_zero <;> split <;> decide
        · decide
      · unfold preauthHostnameBit
        rw [if_neg fun hc => h hc.1]
        decide
    · split <;> decide

/-- Witness for C7 at a concrete nonzero chain index. -/
theorem claim_C7_witness :
    (1 : Nat) ≠ 0 ∧
    (tls_check_preauth ⟨true, true, true, 0, fun _ => []⟩ ⟨[], []⟩ []
        ⟨[], -1, 1, false⟩ 731 1).1 &&& CERTERR_HOSTNAME = 0 :=
  ⟨by decide, claim_C7_theorem _ _ _ _ _ _ (by decide)⟩

/-! ## Trust-store lookup lemmas -/

/-- The scanning loop finds a match exactly when some line parses to the
queried hostname and digest. -/
theorem storedHostnameLoop_iff_mem (hostname fp : List Char) (L : List (List Char)) :
    storedHostnameLoop hostname fp L = true ↔
      ∃ l ∈ L, parseHostnamePinLine l = some (hostname, fp) := by
  induction L with
  | nil => simp [storedHostnameLoop]
  | cons line rest ih =>
    simp only [storedHostnameLoop]
    cases hp : parseHostnamePinLine line with
    | none =>
      rw [ih]
      constructor
      · intro ⟨l, hl, he⟩
        exact ⟨l, List.mem_cons_of_mem _ hl, he⟩
      · intro ⟨l, hl, he⟩
        rcases List.mem_cons.1 hl with rfl | hl2
        · rw [hp] at he
          exact absurd he (by simp)
        · exact ⟨l, hl2, he⟩
    | some pr =>
      obtain ⟨h, d⟩ := pr
      dsimp only
      by_cases hc : h = hostname ∧ d = fp
      · rw [if_pos hc]
        constructor
        · intro _
          exact ⟨line, List.mem_cons_self _ _, by rw [hp, hc.1, hc.2]⟩
        · intro _
          rfl
      · rw [if_neg hc, ih]
        constructor
        · intro ⟨l, hl, he⟩
          exact ⟨l, List.mem_cons_of_mem _ hl, he⟩
        · intro ⟨l, hl, he⟩
          rcases List.mem_cons.1 hl with rfl | hl2
          · rw [hp] at he
            rw [Option.some.injEq, Prod.mk.injEq] at he
            exact absurd he hc
          · exact ⟨l, hl2, he⟩

/-- A maximal hostname-character run followed by the space separator. -/
theorem spanHost_space (h f : List Char) (hh : ∀ c ∈ h, isHostChar c = true) :
    spanHost (h ++ ' ' :: f) = (h, ' ' :: f) := by
  induction h with
  | nil =>
    rw [List.nil_append, spanHost]
    rfl
  | cons c cs ih =>
    have hc := hh c (List.mem_cons_self _ _)
    rw [List.cons_append, spanHost, if_pos hc,
      ih fun x hx => hh x (List.mem_cons_of_mem _ hx)]

/-- Well-formedness of a hostname as the pin-line regex demands: nonempty,
all characters in the hostname class. -/
def goodHostname (h : List Char) : Prop :=
  h ≠ [] ∧ ∀ c ∈ h, isHostChar c = true

instance (h : List Char) : Decidable (goodHostname h) := by
  unfold goodHostname
  infer_instance

/-- Well-formedness of a digest string as the pin-line regex demands: the
digest parser consumes exactly the whole string and captures it. -/
def goodDigest (f : List Char) : Prop :=
  parseDigest f = some (f, [])

instance (f : List Char) : Decidable (goodDigest f) := by
  unfold goodDigest
  infer_instance

/-- A pin line written by `appendHostnamePin` with well-formed hostname and
digest parses back to exactly its two fields. -/
theorem parseHostnamePinLine_roundtrip (h f : List Char) (hne : h ≠ [])
    (hh : ∀ c ∈ h, isHostChar c = true) (hf : parseDigest f = some (f, [])) :
    parseHostnamePinLine (hostnamePinLine h f) = some (h, f) := by
  unfold hostnamePinLine
  simp only [parseHostnamePinLine, spanHost_space h f hh]
  rw [if_neg hne]
  simp [hf]

/-- A store holding exactly a sequence of hostname pins appended (in order)
over an initially empty certificate file. -/
def buildPinStore (ps : List (List Char × List Char)) : CertFile :=
  ps.foldl (fun s p => appendHostnamePin s p.1 p.2) ⟨[], []⟩

theorem buildPinStore_lines (ps : List (List Char × List Char)) :
    (buildPinStore ps).lines = ps.map fun p => hostnamePinLine p.1 p.2 := by
  have gen : ∀ (l : List (List Char × List Char)) (s : CertFile),
      (l.foldl (fun s p => appendHostnamePin s p.1 p.2) s).lines =
        s.lines ++ l.map fun p => hostnamePinLine p.1 p.2 := by
    intro l
    induction l with
    | nil => intro s; simp
    | cons p pt ih =>
      intro s
      rw [List.foldl_cons, ih]
      simp [appendHostnamePin]
  simpa [buildPinStore] using gen ps ⟨[], []⟩

/-! ## Claim C8 -/

/-- C8 counterexample: the claim quantifies over every hostname and digest,
but the scan re-parses lines with the fixed-format regex, so appending a pin
whose digest is not in the eight-groups-of-four-hex format (here the digest
XY) produces a line the scan never matches: the round trip returns false. -/
theorem claim_C8_counterexample :
    storedHostnameLoop ['h'] ['X', 'Y']
      (appendHostnamePin ⟨[], []⟩ ['h'] ['X', 'Y']).lines = false := by
  decide

/-- C8 (amended): for a hostname that is nonempty over the regex's hostname
class and a digest in the canonical eight-groups-of-four-hex format, the
append/match round trip holds over any prior store; and on a store built
only of such well-formed pins, a digest differing from every digest appended
for the queried hostname is not matched. -/
theorem claim_C8_theorem (S : CertFile) (h f f2 : List Char)
    (ps : List (List Char × List Char)) :
    (goodHostname h → goodDigest f →
      storedHostnameLoop h f (appendHostnamePin S h f).lines = true) ∧
    ((∀ p ∈ ps, goodHostname p.1 ∧ goodDigest p.2) →
      (∀ p ∈ ps, p.1 = h → p.2 ≠ f2) →
      storedHostnameLoop h f2 (buildPinStore ps).lines = false) := by
  constructor
  · intro hh hf
    rw [storedHostnameLoop_iff_mem]
    exact ⟨hostnamePinLine h f, by simp [appendHostnamePin],
      parseHostnamePinLine_roundtrip h f hh.1 hh.2 hf⟩
  · intro hgood hdiff
    by_contra hcon
    rw [Bool.not_eq_false, storedHostnameLoop_iff_mem] at hcon
    obtain ⟨l, hl, hparse⟩ := hcon
    rw [buildPinStore_lines] at hl
    obtain ⟨p, hp, rfl⟩ := List.mem_map.1 hl
    have hg := hgood p hp
    rw [parseHostnamePinLine_roundtrip p.1 p.2 hg.1.1 hg.1.2 hg.2,
      Option.some.injEq, Prod.mk.injEq] at hparse
    exact hdiff p hp hparse.1 hparse.2

/-- Witness for C8 at concrete well-formed inputs. -/
theorem claim_C8_witness :
    goodHostname ("host".toList) ∧
    goodDigest ("0123 4567 89AB CDEF 0123 4567 89AB CDEF".toList) ∧
    storedHostnameLoop ("host".toList)
      ("0123 4567 89AB CDEF 0123 4567 89AB CDEF".toList)
      (appendHostnamePin ⟨[], []⟩ ("host".toList)
        ("0123 4567 89AB CDEF 0123 4567 89AB CDEF".toList)).lines = true ∧
    storedHostnameLoop ("host".toList)
      ("FFFF 4567 89AB CDEF 0123 4567 89AB CDEF".toList)
      (buildPinStore [(("host".toList),
        ("0123 4567 89AB CDEF 0123 4567 89AB CDEF".toList))]).lines = false :=
  ⟨by decide, by decide,
    (claim_C8_theorem ⟨[], []⟩ ("host".toList)
      ("0123 4567 89AB CDEF 0123 4567 89AB CDEF".toList)
      ("FFFF 4567 89AB CDEF 0123 4567 89AB CDEF".toList) []).1 (by decide) (by decide),
    (claim_C8_theorem ⟨[], []⟩ ("host".toList)
      ("0123 4567 89AB CDEF 0123 4567 89AB CDEF".toList)
      ("FFFF 4567 89AB CDEF 0123 4567 89AB CDEF".toList)
      [(("host".toList), ("0123 4567 89AB CDEF 0123 4567 89AB CDEF".toList))]).2
      (by decide) (by decide)⟩

/-! ## Claim C9 -/

/-- ASCII lower-casing of one character. -/
def charLowerAscii (c : Char) : Char :=
  if 'A' ≤ c ∧ c ≤ 'Z' then Char.ofNat (c.toNat + 32) else c

/-- Case-insensitive string equality, as the spec's words demand for the
hostname comparison. -/
def eqIgnoreCase (a b : List Char) : Bool :=
  a.map charLowerAscii = b.map charLowerAscii

/-- Modelled from the spec's words for comparison with the code: the spec
says `matchHostnamePin` is true iff a pin record exists with
case-insensitive-equal hostname and exactly-equal digest string. -/
def matchHostnamePinCI (hostname fp : List Char) (L : List (List Char)) : Bool :=
  L.any fun l =>
    match parseHostnamePinLine l with
    | some (h, d) => eqIgnoreCase h hostname && d = fp
    | none => false

/-- C9 counterexample: a stored pin for `Example` queried with hostname
`example` and the same digest.  Under the spec's case-insensitive comparison
the match holds, but the code compares hostnames with `strcmp` and reports
no match. -/
theorem claim_C9_counterexample :
    storedHostnameLoop ("example".toList)
      ("0123 4567 89AB CDEF 0123 4567 89AB CDEF".toList)
      [("#H Example 0123 4567 89AB CDEF 0123 4567 89AB CDEF".toList)] = false ∧
    matchHostnamePinCI ("example".toList)
      ("0123 4567 89AB CDEF 0123 4567 89AB CDEF".toList)
      [("#H Example 0123 4567 89AB CDEF 0123 4567 89AB CDEF".toList)] = true := by
  exact ⟨by decide, by decide⟩

/-- C9 (amended): the stored-hostname match returns true exactly when some
line of the store parses as a pin whose hostname is equal to the queried
hostname under case-SENSITIVE (`strcmp`) comparison and whose digest string
is exactly equal to the queried digest. -/
theorem claim_C9_theorem (hostname fp : List Char) (L : List (List Char)) :
    storedHostnameLoop hostname fp L = true ↔
      ∃ l ∈ L, parseHostnamePinLine l = some (hostname, fp) :=
  storedHostnameLoop_iff_mem hostname fp L

/-! ## Claim C5 -/

/-- C5 counterexample: a leaf with error bits CERTERR_HOSTNAME plus
CERTERR_NOTTRUSTED and decision accept-always.  The claim says that with a
bit other than CERTERR_HOSTNAME present exactly one record kind (a pinned
certificate) is persisted; the code appends BOTH a hostname pin line and a
certificate block. -/
theorem claim_C5_counterexample :
    tls_check_preauth ⟨false, true, true, 0, fun _ => ['F', 'P']⟩ ⟨[], []⟩ ['h']
        ⟨[9], -100, 100, false⟩ GNUTLS_CERT_INVALID 0 =
      (CERTERR_HOSTNAME ||| CERTERR_NOTTRUSTED, false) ∧
    (tls_check_one_certificate ⟨false, true, true, 0, fun _ => ['F', 'P']⟩ ⟨[], []⟩
        ['h'] ⟨[9], -100, 100, false⟩ GNUTLS_CERT_INVALID 0 .acceptAlways true true).store =
      ⟨[hostnamePinLine ['h'] ['F', 'P']], [[9]]⟩ := by
  exact ⟨by decide, by decide⟩

/-- C5 (amended): under an accept-always decision with the menu offering it
and both writes succeeding, the persisted records are: a hostname pin line
exactly when CERTERR_HOSTNAME is among the error bits, AND a certificate
block exactly when the bits differ from exactly-CERTERR_HOSTNAME — so with
CERTERR_HOSTNAME together with another bit both record kinds are appended,
and with bits exactly CERTERR_HOSTNAME only the pin line is. -/
theorem claim_C5_theorem (cfg : Config) (store : CertFile) (hostname : List Char)
    (cert : Certificate) (certstat : Nat) (idx : Nat)
    (hne : (tls_check_preauth cfg store hostname cert certstat idx).1 ≠ 0)
    (hallow : allowAcceptAlways cfg
      (tls_check_preauth cfg store hostname cert certstat idx).1
      (tls_check_preauth cfg store hostname cert certstat idx).2 = true) :
    tls_check_one_certificate cfg store hostname cert certstat idx
        .acceptAlways true true =
      ⟨true,
        ⟨store.lines ++
          (if (tls_check_preauth cfg store hostname cert certstat idx).1 &&&
              CERTERR_HOSTNAME ≠ 0
            then [hostnamePinLine hostname (cfg.md5fp cert.bytes)] else []),
        store.certs ++
          (if (tls_check_preauth cfg store hostname cert certstat idx).1 ^^^
              CERTERR_HOSTNAME ≠ 0
            then [cert.bytes] else [])⟩,
        true, true, false⟩ := by
  simp only [tls_check_one_certificate]
  rw [if_neg hne]
  simp only [hallow]
  by_cases hother :
      (tls_check_preauth cfg store hostname cert certstat idx).1 ^^^ CERTERR_HOSTNAME ≠ 0
  · by_cases hhost :
        (tls_check_preauth cfg store hostname cert certstat idx).1 &&& CERTERR_HOSTNAME ≠ 0
    · simp [hother, hhost, appendHostnamePin, appendCert]
    · simp [hother, hhost, appendHostnamePin, appendCert]
  · have heq : (tls_check_preauth cfg store hostname cert certstat idx).1 =
        CERTERR_HOSTNAME := by
      rw [Ne, not_not, Nat.xor_eq_zero] at hother
      exact hother
    have hhost : (tls_check_preauth cfg store hostname cert certstat idx).1 &&&
        CERTERR_HOSTNAME ≠ 0 := by
      rw [heq]
      decide
    simp [hother, hhost, heq, appendHostnamePin, appendCert, CERTERR_HOSTNAME]

/-- Witness for C5 at a concrete input (bits CERTERR_HOSTNAME together with
CERTERR_NOTTRUSTED): both records appended, no warning, accepted. -/
theorem claim_C5_witness :
    (tls_check_preauth ⟨false, true, true, 0, fun _ => ['A']⟩ ⟨[], []⟩ ['h']
        ⟨[3], -100, 100, false⟩ GNUTLS_CERT_INVALID 0).1 ≠ 0 ∧
    tls_check_one_certificate ⟨false, true, true, 0, fun _ => ['A']⟩ ⟨[], []⟩ ['h']
        ⟨[3], -100, 100, false⟩ GNUTLS_CERT_INVALID 0 .acceptAlways true true =
      ⟨true, ⟨[hostnamePinLine ['h'] ['A']], [[3]]⟩, true, true, false⟩ := by
  refine ⟨by decide, ?_⟩
  have h := claim_C5_theorem ⟨false, true, true, 0, fun _ => ['A']⟩ ⟨[], []⟩ ['h']
    ⟨[3], -100, 100, false⟩ GNUTLS_CERT_INVALID 0 (by decide) (by decide)
  rw [h]
  decide

/-! ## Claim C6 -/

/-- C6 counterexample: bits CERTERR_HOSTNAME plus CERTERR_NOTTRUSTED,
accept-always, the file opens but the certificate-block write fails.  The
"Couldn't save certificate" warning is issued and the run continues as
accept-once, but something WAS recorded: the hostname pin line written
before the failed block write remains in the store. -/
theorem claim_C6_counterexample :
    tls_check_preauth ⟨false, true, true, 0, fun _ => ['F', 'P']⟩ ⟨[], []⟩ ['h']
        ⟨[9], -100, 100, false⟩ GNUTLS_CERT_INVALID 0 =
      (CERTERR_HOSTNAME ||| CERTERR_NOTTRUSTED, false) ∧
    tls_check_one_certificate ⟨false, true, true, 0, fun _ => ['F', 'P']⟩ ⟨[], []⟩
        ['h'] ⟨[9], -100, 100, false⟩ GNUTLS_CERT_INVALID 0 .acceptAlways true false =
      ⟨true, ⟨[hostnamePinLine ['h'] ['F', 'P']], []⟩, true, true, true⟩ := by
  exact ⟨by decide, by decide⟩

/-- C6 (amended): when the accept-always persistence fails, the warning is
issued and the certificate is still accepted for the run; if the file could
not be opened nothing is recorded, and if the certificate-block write failed
the block is not recorded but a hostname pin line written in the same
operation (when CERTERR_HOSTNAME is among the bits) remains. -/
theorem claim_C6_theorem (cfg : Config) (store : CertFile) (hostname : List Char)
    (cert : Certificate) (certstat : Nat) (idx : Nat) (pemOk : Bool)
    (hne : (tls_check_preauth cfg store hostname cert certstat idx).1 ≠ 0)
    (hallow : allowAcceptAlways cfg
      (tls_check_preauth cfg store hostname cert certstat idx).1
      (tls_check_preauth cfg store hostname cert certstat idx).2 = true) :
    (tls_check_one_certificate cfg store hostname cert certstat idx
        .acceptAlways false pemOk = ⟨true, store, true, true, true⟩) ∧
    ((tls_check_preauth cfg store hostname cert certstat idx).1 ^^^
        CERTERR_HOSTNAME ≠ 0 →
      tls_check_one_certificate cfg store hostname cert certstat idx
          .acceptAlways true false =
        ⟨true,
          ⟨store.lines ++
            (if (tls_check_preauth cfg store hostname cert certstat idx).1 &&&
                CERTERR_HOSTNAME ≠ 0
              then [hostnamePinLine hostname (cfg.md5fp cert.bytes)] else []),
          store.certs⟩,
          true, true, true⟩) := by
  constructor
  · simp only [tls_check_one_certificate]
    rw [if_neg hne]
    simp [hallow]
  · intro hother
    simp only [tls_check_one_certificate]
    rw [if_neg hne]
    by_cases hhost :
        (tls_check_preauth cfg store hostname cert certstat idx).1 &&& CERTERR_HOSTNAME ≠ 0
    · simp [hallow, hother, hhost, appendHostnamePin]
    · simp [hallow, hother, hhost, appendHostnamePin]

/-- Witness for C6 at a concrete input: open failure records nothing, and a
block-write failure leaves only the pin line; both warn and accept. -/
theorem claim_C6_witness :
    (tls_check_preauth ⟨false, true, true, 0, fun _ => ['A']⟩ ⟨[], []⟩ ['h']
        ⟨[3], -100, 100, false⟩ GNUTLS_CERT_INVALID 0).1 ≠ 0 ∧
    tls_check_one_certificate ⟨false, true, true, 0, fun _ => ['A']⟩ ⟨[], []⟩ ['h']
        ⟨[3], -100, 100, false⟩ GNUTLS_CERT_INVALID 0 .acceptAlways false true =
      ⟨true, ⟨[], []⟩, true, true, true⟩ ∧
    tls_check_one_certificate ⟨false, true, true, 0, fun _ => ['A']⟩ ⟨[], []⟩ ['h']
        ⟨[3], -100, 100, false⟩ GNUTLS_CERT_INVALID 0 .acceptAlways true false =
      ⟨true, ⟨[hostnamePinLine ['h'] ['A']], []⟩, true, true, true⟩ := by
  have h := claim_C6_theorem ⟨false, true, true, 0, fun _ => ['A']⟩ ⟨[], []⟩ ['h']
    ⟨[3], -100, 100, false⟩ GNUTLS_CERT_INVALID 0 true (by decide) (by decide)
  refine ⟨by decide, h.1, ?_⟩
  rw [h.2 (by decide)]
  decide

/-! ## Claim C10 -/

/-- C10: the accept-always keys are offered only when a certificate file is
configured, the certificate is not already saved, and none of
CERTERR_EXPIRED, CERTERR_NOTYETVALID, CERTERR_REVOKED is among its error
bits; consequently a certificate carrying one of those three bits never
causes any store append, whatever the decision and write oracles. -/
theorem claim_C10_theorem (cfg : Config) (store : CertFile) (hostname : List Char)
    (cert : Certificate) (certstat : Nat) (idx : Nat) (d : Decision)
    (openOk pemOk : Bool) :
    ((tls_check_one_certificate cfg store hostname cert certstat idx d
        openOk pemOk).offeredAlways = true →
      cfg.certificateFileSet = true ∧
      (tls_check_preauth cfg store hostname cert certstat idx).2 = false ∧
      (tls_check_preauth cfg store hostname cert certstat idx).1 &&&
        (CERTERR_EXPIRED ||| CERTERR_NOTYETVALID ||| CERTERR_REVOKED) = 0) ∧
    ((tls_check_preauth cfg store hostname cert certstat idx).1 &&&
        (CERTERR_EXPIRED ||| CERTERR_NOTYETVALID ||| CERTERR_REVOKED) ≠ 0 →
      (tls_check_one_certificate cfg store hostname cert certstat idx d
        openOk pemOk).store = store) := by
  have hoffer : allowAcceptAlways cfg
      (tls_check_preauth cfg store hostname cert certstat idx).1
      (tls_check_preauth cfg store hostname cert certstat idx).2 = true →
      cfg.certificateFileSet = true ∧
      (tls_check_preauth cfg store hostname cert certstat idx).2 = false ∧
      (tls_check_preauth cfg store hostname cert certstat idx).1 &&&
        (CERTERR_EXPIRED ||| CERTERR_NOTYETVALID ||| CERTERR_REVOKED) = 0 := by
    intro h
    simp only [allowAcceptAlways, Bool.and_eq_true, Bool.not_eq_true',
      decide_eq_true_eq] at h
    exact ⟨h.1.1, h.1.2, h.2⟩
  simp only [tls_check_one_certificate]
  split
  · constructor
    · intro h
      exact absurd h (by simp)
    · intro _
      rfl
  · cases d with
    | reject => exact ⟨hoffer, fun _ => rfl⟩
    | acceptOnce => exact ⟨hoffer, fun _ => rfl⟩
    | acceptAlways =>
      dsimp only
      by_cases hfalse : allowAcceptAlways cfg
          (tls_check_preauth cfg store hostname cert certstat idx).1
          (tls_check_preauth cfg store hostname cert certstat idx).2 = false
      · rw [if_pos hfalse]
        constructor
        · intro h
          rw [hfalse] at h
          exact absurd h (by simp)
        · intro _
          rfl
      · rw [if_neg hfalse]
        have hallow : allowAcceptAlways cfg
            (tls_check_preauth cfg store hostname cert certstat idx).1
            (tls_check_preauth cfg store hostname cert certstat idx).2 = true := by
          revert hfalse
          cases allowAcceptAlways cfg
            (tls_check_preauth cfg store hostname cert certstat idx).1
            (tls_check_preauth cfg store hostname cert certstat idx).2 <;> simp
        refine ⟨fun _ => hoffer hallow, fun hmask => ?_⟩
        exact absurd (hoffer hallow).2.2 hmask

/-- Witness for C10: a concrete offered case and a concrete expired case. -/
theorem claim_C10_witness :
    (tls_check_one_certificate ⟨false, false, true, 0, fun _ => []⟩ ⟨[], []⟩ []
        ⟨[1], -100, 100, true⟩ GNUTLS_CERT_INVALID 0 .acceptOnce true true).offeredAlways =
      true ∧
    ((⟨false, false, true, 0, fun _ => []⟩ : Config).certificateFileSet = true ∧
      (tls_check_preauth ⟨false, false, true, 0, fun _ => []⟩ ⟨[], []⟩ []
          ⟨[1], -100, 100, true⟩ GNUTLS_CERT_INVALID 0).2 = false ∧
      (tls_check_preauth ⟨false, false, true, 0, fun _ => []⟩ ⟨[], []⟩ []
          ⟨[1], -100, 100, true⟩ GNUTLS_CERT_INVALID 0).1 &&&
        (CERTERR_EXPIRED ||| CERTERR_NOTYETVALID ||| CERTERR_REVOKED) = 0) ∧
    (tls_check_preauth ⟨true, false, true, 5, fun _ => []⟩ ⟨[], []⟩ []
        ⟨[2], -100, 1, true⟩ 0 0).1 &&&
      (CERTERR_EXPIRED ||| CERTERR_NOTYETVALID ||| CERTERR_REVOKED) ≠ 0 ∧
    (tls_check_one_certificate ⟨true, false, true, 5, fun _ => []⟩ ⟨[], []⟩ []
        ⟨[2], -100, 1, true⟩ 0 0 .acceptAlways true true).store = ⟨[], []⟩ :=
  ⟨by decide,
    (claim_C10_theorem ⟨false, false, true, 0, fun _ => []⟩ ⟨[], []⟩ []
      ⟨[1], -100, 100, true⟩ GNUTLS_CERT_INVALID 0 .acceptOnce true true).1 (by decide),
    by decide,
    (claim_C10_theorem ⟨true, false, true, 5, fun _ => []⟩ ⟨[], []⟩ []
      ⟨[2], -100, 1, true⟩ 0 0 .acceptAlways true true).2 (by decide)⟩

/-! ## Claim C1 -/

/-- A rejected interactive check that actually showed the menu leaves the
store untouched and returns failure. -/
theorem checkOne_reject_of_asked (cfg : Config) (store : CertFile)
    (hostname : List Char) (cert : Certificate) (certstat : Nat) (idx : Nat)
    (openOk pemOk : Bool)
    (h : (tls_check_one_certificate cfg store hostname cert certstat idx
      .reject openOk pemOk).asked = true) :
    tls_check_one_certificate cfg store hostname cert certstat idx
        .reject openOk pemOk =
      ⟨false, store, true,
        allowAcceptAlways cfg (tls_check_preauth cfg store hostname cert certstat idx).1
          (tls_check_preauth cfg store hostname cert certstat idx).2, false⟩ := by
  revert h
  simp only [tls_check_one_certificate]
  split
  · intro h
    exact absurd h (by simp)
  · intro _
    rfl

/-- C1 counterexample: a two-certificate chain, neither saved, both not
trusted; the decision at the root (position 1) is Reject and at the leaf
(position 0) accept-once.  The claim predicts immediate rejection with no
decide call at position 0; the code continues the walk, asks at position 0,
and even returns acceptance. -/
theorem claim_C1_counterexample :
    (fun i => if i = 1 then Decision.reject else Decision.acceptOnce) 1 =
      Decision.reject ∧
    tls_check_certificate ⟨false, false, false, 0, fun _ => []⟩ []
        [⟨[0], -100, 100, true⟩, ⟨[1], -100, 100, true⟩] GNUTLS_CERT_INVALID
        ⟨[], []⟩ (fun i => if i = 1 then Decision.reject else Decision.acceptOnce)
        (fun _ => 5) (fun _ => true) (fun _ => true) =
      ⟨true, ⟨[], []⟩, [1, 0]⟩ := by
  exact ⟨by decide, by decide⟩

/-- C1 (amended): a Reject decision at a position whose interactive menu was
shown makes that iteration mutate nothing — at the leaf the walk returns
Rejected with the store untouched, and at a higher position the walk simply
continues to the next lower position with the same library status, store and
anchors (no reverification), having recorded only the decide call. -/
theorem claim_C1_theorem (cfg : Config) (hostname : List Char)
    (chain : List Certificate) (dport : Nat → Decision)
    (reverify : List (List Nat) → Nat) (openOk pemOk : Nat → Bool)
    (rcpeer : Int) (i certstat : Nat) (store : CertFile)
    (anchors : List (List Nat)) (asked : List Nat) :
    (dport 0 = Decision.reject →
      (tls_check_one_certificate cfg store hostname (chain.getD 0 dummyCert)
        certstat 0 (dport 0) (openOk 0) (pemOk 0)).asked = true →
      phaseB cfg hostname chain dport reverify openOk pemOk rcpeer
          0 certstat store anchors asked =
        ⟨false, store, asked ++ [0]⟩) ∧
    (dport (i + 1) = Decision.reject →
      (tls_check_one_certificate cfg store hostname (chain.getD (i + 1) dummyCert)
        certstat (i + 1) (dport (i + 1)) (openOk (i + 1)) (pemOk (i + 1))).asked = true →
      phaseB cfg hostname chain dport reverify openOk pemOk rcpeer
          (i + 1) certstat store anchors asked =
        phaseB cfg hostname chain dport reverify openOk pemOk rcpeer
          i certstat store anchors (asked ++ [i + 1])) := by
  constructor
  · intro hd hask
    rw [hd] at hask
    have hr := checkOne_reject_of_asked cfg store hostname (chain.getD 0 dummyCert)
      certstat 0 (openOk 0) (pemOk 0) hask
    simp only [phaseB, hd, hr]
    rfl
  · intro hd hask
    rw [hd] at hask
    have hr := checkOne_reject_of_asked cfg store hostname (chain.getD (i + 1) dummyCert)
      certstat (i + 1) (openOk (i + 1)) (pemOk (i + 1)) hask
    simp only [phaseB, hd, hr]
    rfl

/-- Witness for C1 on concrete one- and two-certificate chains. -/
theorem claim_C1_witness :
    (fun _ : Nat => Decision.reject) 0 = Decision.reject ∧
    (tls_check_one_certificate ⟨false, false, false, 0, fun _ => []⟩ ⟨[], []⟩ []
      (([⟨[0], -100, 100, true⟩] : List Certificate).getD 0 dummyCert)
      GNUTLS_CERT_INVALID 0 ((fun _ : Nat => Decision.reject) 0) true true).asked = true ∧
    phaseB ⟨false, false, false, 0, fun _ => []⟩ [] [⟨[0], -100, 100, true⟩]
        (fun _ => Decision.reject) (fun _ => 5) (fun _ => true) (fun _ => true)
        (-1) 0 GNUTLS_CERT_INVALID ⟨[], []⟩ [] [] =
      ⟨false, ⟨[], []⟩, [0]⟩ ∧
    phaseB ⟨false, false, false, 0, fun _ => []⟩ []
        [⟨[0], -100, 100, true⟩, ⟨[1], -100, 100, true⟩]
        (fun _ => Decision.reject) (fun _ => 5) (fun _ => true) (fun _ => true)
        (-1) 1 GNUTLS_CERT_INVALID ⟨[], []⟩ [] [] =
      phaseB ⟨false, false, false, 0, fun _ => []⟩ []
        [⟨[0], -100, 100, true⟩, ⟨[1], -100, 100, true⟩]
        (fun _ => Decision.reject) (fun _ => 5) (fun _ => true) (fun _ => true)
        (-1) 0 GNUTLS_CERT_INVALID ⟨[], []⟩ [] [1] :=
  ⟨by decide, by decide,
    (claim_C1_theorem ⟨false, false, false, 0, fun _ => []⟩ [] [⟨[0], -100, 100, true⟩]
      (fun _ => Decision.reject) (fun _ => 5) (fun _ => true) (fun _ => true)
      (-1) 0 GNUTLS_CERT_INVALID ⟨[], []⟩ [] []).1 (by decide) (by decide),
    (claim_C1_theorem ⟨false, false, false, 0, fun _ => []⟩ []
      [⟨[0], -100, 100, true⟩, ⟨[1], -100, 100, true⟩]
      (fun _ => Decision.reject) (fun _ => 5) (fun _ => true) (fun _ => true)
      (-1) 0 GNUTLS_CERT_INVALID ⟨[], []⟩ [] []).2 (by decide) (by decide)⟩

/-! ## Claim C3 -/

/-- C3 counterexample: a three-certificate chain, initial status not
trusted.  The root (position 2) is accepted once; re-verification against
the freshly anchored root is clean, and the leaf's RECOMPUTED preauth
against the clean status is VALID — the claim's conditions hold, so it
predicts immediate acceptance without asking below the root.  The code
instead consults the Phase-A stashed leaf result (rcpeer, nonzero here),
keeps walking, asks about the expired intermediate and about the leaf, and
ends Rejected. -/
theorem claim_C3_counterexample :
    (fun i => if i = 0 then Decision.reject else Decision.acceptOnce) 2 =
      Decision.acceptOnce ∧
    (fun l => if l = [[2]] then 0 else GNUTLS_CERT_INVALID) [[2]] = 0 ∧
    tls_check_preauth ⟨true, false, false, 0, fun _ => []⟩ ⟨[], []⟩ []
        ⟨[0], -100, 100, true⟩ 0 0 = (CERTERR_VALID, false) ∧
    tls_check_certificate ⟨true, false, false, 0, fun _ => []⟩ []
        [⟨[0], -100, 100, true⟩, ⟨[1], -100, -1, true⟩, ⟨[2], -100, 100, true⟩]
        GNUTLS_CERT_INVALID ⟨[], []⟩
        (fun i => if i = 0 then Decision.reject else Decision.acceptOnce)
        (fun l => if l = [[2]] then 0 else GNUTLS_CERT_INVALID)
        (fun _ => true) (fun _ => true) =
      ⟨false, ⟨[], []⟩, [2, 1, 0]⟩ := by
  exact ⟨by decide, by decide, by decide, by decide⟩

/-- C3 (amended): after a positive interactive result at position i+1, the
walk adds the certificate as an anchor and re-verifies; it returns Accepted
immediately exactly when the new status is clean AND the Phase-A stashed
leaf result `rcpeer` was 0 — not the leaf's preauth recomputed at that
moment. -/
theorem claim_C3_theorem (cfg : Config) (hostname : List Char)
    (chain : List Certificate) (dport : Nat → Decision)
    (reverify : List (List Nat) → Nat) (openOk pemOk : Nat → Bool)
    (rcpeer : Int) (i certstat : Nat) (store : CertFile)
    (anchors : List (List Nat)) (asked : List Nat)
    (hacc : (tls_check_one_certificate cfg store hostname
      (chain.getD (i + 1) dummyCert) certstat (i + 1) (dport (i + 1))
      (openOk (i + 1)) (pemOk (i + 1))).accepted = true)
    (hrev : reverify (anchors ++ [(chain.getD (i + 1) dummyCert).bytes]) = 0)
    (hrc : rcpeer = 0) :
    phaseB cfg hostname chain dport reverify openOk pemOk rcpeer
        (i + 1) certstat store anchors asked =
      ⟨true,
        (tls_check_one_certificate cfg store hostname
          (chain.getD (i + 1) dummyCert) certstat (i + 1) (dport (i + 1))
          (openOk (i + 1)) (pemOk (i + 1))).store,
        asked ++
          (if (tls_check_one_certificate cfg store hostname
              (chain.getD (i + 1) dummyCert) certstat (i + 1) (dport (i + 1))
              (openOk (i + 1)) (pemOk (i + 1))).asked
            then [i + 1] else [])⟩ := by
  simp only [phaseB, hacc, hrev, hrc, if_pos rfl]
  simp

/-- Witness for C3 on a concrete two-certificate chain: accepting the root
with clean re-verification and `rcpeer = 0` returns Accepted at once. -/
theorem claim_C3_witness :
    (tls_check_one_certificate ⟨false, false, false, 0, fun _ => []⟩ ⟨[], []⟩ []
      (([⟨[0], -100, 100, true⟩, ⟨[1], -100, 100, true⟩] : List Certificate).getD 1 dummyCert)
      GNUTLS_CERT_INVALID 1 ((fun _ : Nat => Decision.acceptOnce) 1) true true).accepted =
      true ∧
    (fun _ : List (List Nat) => (0 : Nat)) ([] ++ [[1]]) = 0 ∧
    phaseB ⟨false, false, false, 0, fun _ => []⟩ []
        [⟨[0], -100, 100, true⟩, ⟨[1], -100, 100, true⟩]
        (fun _ => Decision.acceptOnce) (fun _ => 0) (fun _ => true) (fun _ => true)
        0 1 GNUTLS_CERT_INVALID ⟨[], []⟩ [] [] =
      ⟨true, ⟨[], []⟩, [1]⟩ := by
  refine ⟨by decide, by decide, ?_⟩
  have h := claim_C3_theorem ⟨false, false, false, 0, fun _ => []⟩ []
    [⟨[0], -100, 100, true⟩, ⟨[1], -100, 100, true⟩]
    (fun _ => Decision.acceptOnce) (fun _ => 0) (fun _ => true) (fun _ => true)
    0 0 GNUTLS_CERT_INVALID ⟨[], []⟩ [] [] (by decide) (by decide) rfl
  rw [h]
  decide

/-! ## Claim C4 -/

/-- C4: when every certificate of the chain is pinned in the store and every
per-position preauth status is zero, the fast path accepts at the leaf with
no interaction and no store mutation. -/
theorem claim_C4_theorem (cfg : Config) (store : CertFile) (hostname : List Char)
    (c : Certificate) (rest : List Certificate) (certstat0 : Nat)
    (dport : Nat → Decision) (reverify : List (List Nat) → Nat)
    (openOk pemOk : Nat → Bool)
    (hall : ∀ i < (c :: rest).length,
      tls_compare_certificates cfg store ((c :: rest).getD i dummyCert).bytes = true ∧
      (tls_check_preauth cfg store hostname ((c :: rest).getD i dummyCert)
        certstat0 i).1 = 0) :
    tls_check_certificate cfg hostname (c :: rest) certstat0 store dport
        reverify openOk pemOk = ⟨true, store, []⟩ := by
  have h0 := hall 0 (by simp)
  rw [List.getD_cons_zero] at h0
  have hA : phaseA cfg store hostname certstat0 (c :: rest) 0 0 (-1) =
      PhaseAOut.accepted := by
    simp [phaseA, h0.1, h0.2, tls_check_preauth_snd]
  simp only [tls_check_certificate, hA]

/-- Witness for C4: a single pinned, clean certificate. -/
theorem claim_C4_witness :
    (∀ i < ([⟨[5], -100, 100, true⟩] : List Certificate).length,
      tls_compare_certificates ⟨false, false, true, 0, fun _ => []⟩ ⟨[], [[5]]⟩
        (([⟨[5], -100, 100, true⟩] : List Certificate).getD i dummyCert).bytes = true ∧
      (tls_check_preauth ⟨false, false, true, 0, fun _ => []⟩ ⟨[], [[5]]⟩ []
        (([⟨[5], -100, 100, true⟩] : List Certificate).getD i dummyCert) 0 i).1 = 0) ∧
    tls_check_certificate ⟨false, false, true, 0, fun _ => []⟩ []
        [⟨[5], -100, 100, true⟩] 0 ⟨[], [[5]]⟩ (fun _ => Decision.reject)
        (fun _ => 0) (fun _ => true) (fun _ => true) =
      ⟨true, ⟨[], [[5]]⟩, []⟩ :=
  ⟨by decide,
    claim_C4_theorem ⟨false, false, true, 0, fun _ => []⟩ ⟨[], [[5]]⟩ []
      ⟨[5], -100, 100, true⟩ [] 0 (fun _ => Decision.reject) (fun _ => 0)
      (fun _ => true) (fun _ => true) (by decide)⟩
